import Mathlib

/-!
Verification of the rapid-annotate interactive annotation editor.

This file shallowly embeds the geometry and merge logic of the editor:
the coordinate mapper (functions getNormalizedCoords and toDisplayCoords),
the draw, move and resize pointer handlers of InteractiveAnnotator.tsx,
the label color allocator of utils/colorUtils.ts, and the Gemini-assist
merge path. JavaScript numbers are modelled as rationals (exact
arithmetic); JS falsiness of zero is modelled explicitly where the source
relies on it; the id generator crypto.randomUUID is modelled by an
id-supply parameter.
-/

namespace RapidAnnotate

/-- Annotation provenance, from the type AnnotationSource in src/types.ts. -/
inductive AnnotationSource
  | gemini
  | humanAdded
  | humanEdited
  | geminiAssisted
deriving DecidableEq, Repr

/-- A bounding box, from the interface BoundingBox in src/types.ts.
Coordinates are normalized to the image; ids are opaque and modelled as
naturals. -/
structure BoundingBox where
  id : Nat
  label : String
  x_min : ℚ
  y_min : ℚ
  width : ℚ
  height : ℚ
  color : Option String := none
  source : AnnotationSource
deriving DecidableEq, Repr

/-- Just the geometry fields of a box (the fields that toDisplayCoords
and the pointer handlers read and write). -/
structure NormRect where
  x_min : ℚ
  y_min : ℚ
  width : ℚ
  height : ℚ
deriving DecidableEq, Repr

def BoundingBox.rect (b : BoundingBox) : NormRect :=
  ⟨b.x_min, b.y_min, b.width, b.height⟩

/-- Derived display geometry (the imageRenderSize state of the editor):
rendered image size and letterbox offsets inside the svg container. -/
structure RenderSize where
  width : ℚ
  height : ℚ
  offsetX : ℚ
  offsetY : ℚ
deriving DecidableEq, Repr

/-- Position of the svg container in client coordinates (the fields
left and top of svgRect). -/
structure SvgRect where
  left : ℚ
  top : ℚ
deriving DecidableEq, Repr

/-- A point in normalized coordinates. -/
structure Point where
  x : ℚ
  y : ℚ
deriving DecidableEq, Repr

/-- A pixel rectangle on the display surface, as produced by
toDisplayCoords. -/
structure DisplayRect where
  x : ℚ
  y : ℚ
  width : ℚ
  height : ℚ
deriving DecidableEq, Repr

/-- Embeds Math.max(0, Math.min(1, t)). -/
def clamp01 (t : ℚ) : ℚ := max 0 (min 1 t)

/-- Embeds getNormalizedCoords (InteractiveAnnotator.tsx, lines 95-101):
client coordinates to normalized image coordinates, clamped into the unit
interval on each axis; null when the render size is not yet known. -/
def getNormalizedCoords (svg : SvgRect) (r : RenderSize) (clientX clientY : ℚ) :
    Option Point :=
  if r.width = 0 then none
  else some
    { x := clamp01 ((clientX - svg.left - r.offsetX) / r.width)
      y := clamp01 ((clientY - svg.top - r.offsetY) / r.height) }

/-- Embeds toDisplayCoords (InteractiveAnnotator.tsx, lines 262-270):
normalized box to display pixel rectangle. The source guard treats a zero
field of the box (and a zero render width) as falsy, so any zero geometry
field yields the empty record, modelled as none. -/
def toDisplayCoords (r : RenderSize) (b : NormRect) : Option DisplayRect :=
  if b.x_min = 0 ∨ b.y_min = 0 ∨ b.width = 0 ∨ b.height = 0 ∨ r.width = 0 then none
  else some
    { x := b.x_min * r.width + r.offsetX
      y := b.y_min * r.height + r.offsetY
      width := b.width * r.width
      height := b.height * r.height }

/-- A resize-handle affordance as rendered (id and center position). -/
structure HandlePos where
  id : String
  cx : ℚ
  cy : ℚ
deriving DecidableEq, Repr

/-- Embeds getHandlePositions (InteractiveAnnotator.tsx, lines 272-282):
the four corner handles of the displayed box, or the empty list when the
displayed x coordinate is falsy (absent or zero). -/
def getHandlePositions (r : RenderSize) (b : NormRect) : List HandlePos :=
  match toDisplayCoords r b with
  | none => []
  | some d =>
    if d.x = 0 then []
    else
      [ ⟨"nw", d.x, d.y⟩
      , ⟨"ne", d.x + d.width, d.y⟩
      , ⟨"sw", d.x, d.y + d.height⟩
      , ⟨"se", d.x + d.width, d.y + d.height⟩ ]

/-- The eight compass resize handles (type ResizeHandle in the source). -/
inductive ResizeHandle
  | n | s | e | w | nw | ne | sw | se
deriving DecidableEq, Repr

/-- Anchor data stored at pointer-down for a move gesture (the fields
startX, startY, boxInitialX, boxInitialY of InteractionState). -/
structure MoveAnchor where
  startX : ℚ
  startY : ℚ
  boxInitialX : ℚ
  boxInitialY : ℚ
deriving DecidableEq, Repr

/-- Embeds the move branch of handleMouseMove (lines 158-174), applied to
the selected box with already-normalized pointer coordinates c: translate
the initial origin of the box by the pointer delta, then clamp so the box
stays inside the unit square on both axes. -/
def moveBox (a : MoveAnchor) (b : NormRect) (c : Point) : NormRect :=
  let dx := c.x - a.startX
  let dy := c.y - a.startY
  { b with
      x_min := max 0 (min (a.boxInitialX + dx) (1 - b.width))
      y_min := max 0 (min (a.boxInitialY + dy) (1 - b.height)) }

/-- Embeds the resize branch of handleMouseMove (lines 175-193): only the
se handle changes the extents (width becomes max(0.01, x - x_min), height
analogously); the source has no logic for the other seven handles, which
leave the destructured geometry unchanged; the final clamp against the
unit square runs for every handle. -/
def resizeBox (h : ResizeHandle) (b : NormRect) (c : Point) : NormRect :=
  let w := if h = ResizeHandle.se then max (1/100) (c.x - b.x_min) else b.width
  let ht := if h = ResizeHandle.se then max (1/100) (c.y - b.y_min) else b.height
  let w' := if b.x_min + w > 1 then 1 - b.x_min else w
  let ht' := if b.y_min + ht > 1 then 1 - b.y_min else ht
  { b with width := w', height := ht' }

/-- Embeds the draw branch of handleMouseDown (line 108): the press point
with zero extent. -/
def drawMouseDown (p : Point) : NormRect :=
  { x_min := p.x, y_min := p.y, width := 0, height := 0 }

/-- Embeds the draw branch of handleMouseMove (lines 148-157): the new
width and height are the absolute differences of the pointer from the
stored x_min and y_min, which are then overwritten with the pointwise
minimum of the pointer and the stored values. -/
def drawMove (d : NormRect) (q : Point) : NormRect :=
  { x_min := min q.x d.x_min
    y_min := min q.y d.y_min
    width := |q.x - d.x_min|
    height := |q.y - d.y_min| }

/-- Runs a draw gesture: pointer-down at p followed by pointer-moves
through the points qs, each handled by drawMove. -/
def runDraw (p : Point) (qs : List Point) : NormRect :=
  qs.foldl drawMove (drawMouseDown p)

/-- A Move or Resize pointer-move event carrying raw client coordinates
(possibly outside the image area). -/
inductive EditEvent
  | move (a : MoveAnchor) (clientX clientY : ℚ)
  | resize (h : ResizeHandle) (clientX clientY : ℚ)

/-- One handleMouseMove call in move or resize mode: the client point is
normalized (and clamped) first; a null normalization leaves the box
untouched, as the early return in the source does. -/
def stepEvent (svg : SvgRect) (r : RenderSize) (b : NormRect) : EditEvent → NormRect
  | .move a cx cy =>
    match getNormalizedCoords svg r cx cy with
    | none => b
    | some c => moveBox a b c
  | .resize h cx cy =>
    match getNormalizedCoords svg r cx cy with
    | none => b
    | some c => resizeBox h b c

/-- Runs a sequence of move and resize pointer events. -/
def runEvents (svg : SvgRect) (r : RenderSize) (b : NormRect)
    (es : List EditEvent) : NormRect :=
  es.foldl (stepEvent svg r) b

/-- Box invariant of the data model: nonnegative origin, positive extents,
contained in the unit square. -/
def ValidRect (b : NormRect) : Prop :=
  0 ≤ b.x_min ∧ 0 ≤ b.y_min ∧ 0 < b.width ∧ 0 < b.height ∧
    b.x_min + b.width ≤ 1 ∧ b.y_min + b.height ≤ 1

instance (b : NormRect) : Decidable (ValidRect b) := by
  unfold ValidRect; infer_instance

/-- Round trip of claim C2: map a box to its display rectangle, then map
its two corners (converted to client coordinates by adding the svg
origin, as the rendering and the mouse pipeline do) back through
getNormalizedCoords. -/
def roundTripCorners (svg : SvgRect) (r : RenderSize) (b : NormRect) :
    Option (Point × Point) :=
  match toDisplayCoords r b with
  | none => none
  | some d =>
    match getNormalizedCoords svg r (d.x + svg.left) (d.y + svg.top),
          getNormalizedCoords svg r (d.x + d.width + svg.left)
            (d.y + d.height + svg.top) with
    | some p1, some p2 => some (p1, p2)
    | _, _ => none

/-! ## Label color allocator (src/utils/colorUtils.ts)

The module state is the labelColorMap together with the colorIndex
counter. The palette BOUNDING_BOX_COLORS is defined in src/constants.ts,
which is not among the provided sources; it is passed as a parameter here
(the spec only requires a fixed finite palette). -/

/-- Association-list lookup, embedding Map.has / Map.get of the source. -/
def mapLookup : List (String × String) → String → Option String
  | [], _ => none
  | (k, v) :: rest, l => if k = l then some v else mapLookup rest l

/-- Mutable module state of colorUtils.ts. -/
structure ColorState where
  labelColorMap : List (String × String)
  colorIndex : Nat
deriving DecidableEq, Repr

/-- State after module load (empty map, counter zero). -/
def initColorState : ColorState := ⟨[], 0⟩

/-- Embeds getLabelColor (colorUtils.ts, lines 6-12): return the cached
color for the label, or assign palette[colorIndex % palette.length],
cache it and bump the counter. -/
def getLabelColor (palette : List String) (label : String) (s : ColorState) :
    String × ColorState :=
  match mapLookup s.labelColorMap label with
  | some c => (c, s)
  | none =>
    let c := palette.getD (s.colorIndex % palette.length) ""
    (c, ⟨(label, c) :: s.labelColorMap, s.colorIndex + 1⟩)

/-- Embeds resetLabelColors (colorUtils.ts, lines 14-17): clear the map
and the counter. -/
def resetLabelColors (_s : ColorState) : ColorState := initColorState

/-- Runs getLabelColor over a sequence of labels, collecting the returned
colors in order. -/
def runLabels (palette : List String) (s : ColorState) :
    List String → List String × ColorState
  | [] => ([], s)
  | l :: ls =>
    let (c, s') := getLabelColor palette l s
    let (cs, s'') := runLabels palette s' ls
    (c :: cs, s'')

/-! ## Draw commit and assist merge (InteractiveAnnotator.tsx) -/

/-- Embeds the draw branch of handleMouseUp (lines 196-213): a box is
committed only when the width and height of the drawing box are truthy
(nonzero) and the user supplied a label; it gets a fresh id, the color of
its label and source human-added. Returns the new box list and color
state. -/
def handleMouseUpDraw (palette : List String) (boxes : List BoundingBox)
    (d : NormRect) (labelResult : Option String) (freshId : Nat)
    (cs : ColorState) : List BoundingBox × ColorState :=
  if d.width ≠ 0 ∧ d.height ≠ 0 then
    match labelResult with
    | some lbl =>
      let (c, cs') := getLabelColor palette lbl cs
      (boxes ++
        [{ id := freshId, label := lbl, x_min := d.x_min, y_min := d.y_min,
           width := d.width, height := d.height, color := some c,
           source := AnnotationSource.humanAdded }], cs')
    | none => (boxes, cs)
  else (boxes, cs)

/-- A raw candidate box parsed from the Gemini response, after the field
type check passed (malformed entries are modelled as none below). -/
structure RawBox where
  label : String
  x_min : ℚ
  y_min : ℚ
  width : ℚ
  height : ℚ
deriving DecidableEq, Repr

/-- Embeds the validation loop of generateAssistedAnnotations (the gemini
service source appended to colorUtils.ts): each well-formed entry gets a
fresh id (crypto.randomUUID, modelled by the supply ids indexed by how
many valid entries came before) and source gemini-assisted; malformed
entries are skipped with a warning. -/
def validateAssistBoxes (ids : Nat → Nat) :
    List (Option RawBox) → Nat → List BoundingBox
  | [], _ => []
  | none :: rest, k => validateAssistBoxes ids rest k
  | some rb :: rest, k =>
    { id := ids k, label := rb.label, x_min := rb.x_min, y_min := rb.y_min,
      width := rb.width, height := rb.height, color := none,
      source := AnnotationSource.geminiAssisted } ::
      validateAssistBoxes ids rest (k + 1)

/-- Editor state touched by handleGeminiAssistRequest. -/
structure AssistState where
  boxes : List BoundingBox
  assistError : Option String
  colorState : ColorState
deriving Repr

/-- Attaches display colors to the suggested boxes, as the map over
newSuggestedBoxes does, threading the allocator state. -/
def assignColors (palette : List String) (cs : ColorState) :
    List BoundingBox → List BoundingBox × ColorState
  | [] => ([], cs)
  | b :: bs =>
    let (c, cs') := getLabelColor palette b.label cs
    let (bs', cs'') := assignColors palette cs' bs
    ({ b with color := some c } :: bs', cs'')

/-- Embeds handleGeminiAssistRequest (lines 238-257) with the awaited
outcome of onGeminiAssist passed as the result argument: a blank prompt
is rejected before any call (the source tests !assistPrompt.trim(), and
trimming yields the empty string exactly when every character is
whitespace); on success the colored suggestions are appended to the
existing boxes; on failure only the error message is recorded (an empty
message is falsy and replaced by the default). -/
def handleGeminiAssistRequest (palette : List String) (assistPrompt : String)
    (result : Except String (List BoundingBox)) (s : AssistState) : AssistState :=
  if assistPrompt.data.all Char.isWhitespace then
    { s with assistError := some "Please enter a prompt for Gemini Assist." }
  else
    match result with
    | Except.ok newSuggestedBoxes =>
      let (colored, cs') := assignColors palette s.colorState newSuggestedBoxes
      { boxes := s.boxes ++ colored, assistError := none, colorState := cs' }
    | Except.error msg =>
      { s with
          assistError := some (if msg = "" then "Gemini Assist failed." else msg) }

/-- Invariant tying an allocator state to the set of labels seen so far:
the counter equals the map size, the map contains exactly the seen
labels, and its keys are distinct. -/
def SeenInv (seen : List String) (s : ColorState) : Prop :=
  s.colorIndex = s.labelColorMap.length ∧
  (∀ l, (mapLookup s.labelColorMap l).isSome ↔ l ∈ seen) ∧
  (s.labelColorMap.map Prod.fst).Nodup

/-! ## Helper lemmas -/

lemma moveBox_valid (a : MoveAnchor) (b : NormRect) (c : Point)
    (hb : ValidRect b) : ValidRect (moveBox a b c) := by
  obtain ⟨hx, hy, hw, hh, hxw, hyh⟩ := hb
  have hw1 : b.width ≤ 1 := by linarith
  have hh1 : b.height ≤ 1 := by linarith
  refine ⟨le_max_left _ _, le_max_left _ _, hw, hh, ?_, ?_⟩
  · have : max 0 (min (a.boxInitialX + (c.x - a.startX)) (1 - b.width)) ≤ 1 - b.width :=
      max_le (by linarith) (min_le_right _ _)
    simpa [moveBox] using by linarith [this]
  · have : max 0 (min (a.boxInitialY + (c.y - a.startY)) (1 - b.height)) ≤ 1 - b.height :=
      max_le (by linarith) (min_le_right _ _)
    simpa [moveBox] using by linarith [this]

lemma clampExtent_pos (xm w : ℚ) (hxm1 : xm < 1) (hw : 0 < w) :
    0 < (if xm + w > 1 then 1 - xm else w) ∧
      xm + (if xm + w > 1 then 1 - xm else w) ≤ 1 := by
  split_ifs with h
  · constructor <;> linarith
  · exact ⟨hw, by linarith [not_lt.mp h]⟩

lemma resizeBox_valid (h : ResizeHandle) (b : NormRect) (c : Point)
    (hb : ValidRect b) : ValidRect (resizeBox h b c) := by
  obtain ⟨hx, hy, hw, hh, hxw, hyh⟩ := hb
  have hx1 : b.x_min < 1 := by linarith
  have hy1 : b.y_min < 1 := by linarith
  have hwpos : 0 < (if h = ResizeHandle.se then max (1/100) (c.x - b.x_min) else b.width) := by
    split_ifs
    · exact lt_of_lt_of_le (by norm_num) (le_max_left _ _)
    · exact hw
  have hhpos : 0 < (if h = ResizeHandle.se then max (1/100) (c.y - b.y_min) else b.height) := by
    split_ifs
    · exact lt_of_lt_of_le (by norm_num) (le_max_left _ _)
    · exact hh
  have hwc := clampExtent_pos b.x_min _ hx1 hwpos
  have hhc := clampExtent_pos b.y_min _ hy1 hhpos
  exact ⟨hx, hy, hwc.1, hhc.1, hwc.2, hhc.2⟩

lemma stepEvent_valid (svg : SvgRect) (r : RenderSize) (b : NormRect)
    (e : EditEvent) (hb : ValidRect b) : ValidRect (stepEvent svg r b e) := by
  cases e with
  | move a cx cy =>
    cases hc : getNormalizedCoords svg r cx cy with
    | none => simpa [stepEvent, hc] using hb
    | some c => simpa [stepEvent, hc] using moveBox_valid a b c hb
  | resize h cx cy =>
    cases hc : getNormalizedCoords svg r cx cy with
    | none => simpa [stepEvent, hc] using hb
    | some c => simpa [stepEvent, hc] using resizeBox_valid h b c hb

lemma runEvents_valid (svg : SvgRect) (r : RenderSize) (b : NormRect)
    (es : List EditEvent) (hb : ValidRect b) :
    ValidRect (runEvents svg r b es) := by
  induction es generalizing b with
  | nil => exact hb
  | cons e es ih => exact ih _ (stepEvent_valid svg r b e hb)

lemma assignColors_fields (palette : List String) (cs : ColorState)
    (bs : List BoundingBox) :
    (assignColors palette cs bs).1.map BoundingBox.id = bs.map BoundingBox.id ∧
    (assignColors palette cs bs).1.map BoundingBox.source = bs.map BoundingBox.source ∧
    (assignColors palette cs bs).1.length = bs.length := by
  induction bs generalizing cs with
  | nil => simp [assignColors]
  | cons b bs ih =>
    simp only [assignColors, List.map_cons, List.length_cons]
    obtain ⟨h1, h2, h3⟩ := ih (getLabelColor palette b.label cs).2
    exact ⟨by simp [h1], by simp [h2], by simp [h3]⟩

lemma mapLookup_isSome (m : List (String × String)) (x : String) :
    (mapLookup m x).isSome ↔ x ∈ m.map Prod.fst := by
  induction m with
  | nil => simp [mapLookup]
  | cons kv rest ih =>
    obtain ⟨k, v⟩ := kv
    by_cases hk : k = x
    · subst hk
      simp [mapLookup]
    · simp [mapLookup, hk, ih, Ne.symm hk]

lemma SeenInv_congr (seen1 seen2 : List String) (s : ColorState)
    (hmem : ∀ x, x ∈ seen1 ↔ x ∈ seen2) (h : SeenInv seen1 s) : SeenInv seen2 s :=
  ⟨h.1, fun l => (h.2.1 l).trans (hmem l), h.2.2⟩

lemma getLabelColor_inv (palette : List String) (l : String) (seen : List String)
    (s : ColorState) (h : SeenInv seen s) :
    SeenInv (l :: seen) ((getLabelColor palette l s).2) := by
  obtain ⟨h1, h2, h3⟩ := h
  unfold getLabelColor
  cases hl : mapLookup s.labelColorMap l with
  | some c =>
    refine ⟨h1, fun x => ?_, h3⟩
    rw [List.mem_cons]
    rcases eq_or_ne x l with rfl | hx
    · simp [hl]
    · simp [hx, h2 x]
  | none =>
    refine ⟨by simp [h1], fun x => ?_, ?_⟩
    · rw [List.mem_cons]
      rcases eq_or_ne x l with rfl | hx
      · simp [mapLookup]
      · simp [mapLookup, Ne.symm hx, hx, h2 x]
    · simp only [List.map_cons, List.nodup_cons]
      refine ⟨?_, h3⟩
      rw [← mapLookup_isSome, hl]
      simp

lemma runLabels_inv (palette : List String) (ls seen : List String)
    (s : ColorState) (h : SeenInv seen s) :
    SeenInv (ls ++ seen) ((runLabels palette s ls).2) := by
  induction ls generalizing seen s with
  | nil => simpa using h
  | cons l ls ih =>
    have step := getLabelColor_inv palette l seen s h
    have := ih (l :: seen) ((getLabelColor palette l s).2) step
    refine SeenInv_congr _ _ _ (fun x => ?_) this
    simp only [List.mem_append, List.mem_cons]
    tauto

lemma initColorState_inv : SeenInv [] initColorState :=
  ⟨rfl, fun l => by simp [initColorState, mapLookup], by simp [initColorState]⟩

lemma runLabels_init_inv (palette : List String) (ls : List String) :
    SeenInv ls ((runLabels palette initColorState ls).2) := by
  have := runLabels_inv palette ls [] initColorState initColorState_inv
  simpa using this

lemma runLabels_colorIndex (palette : List String) (ls : List String) :
    ((runLabels palette initColorState ls).2).colorIndex = ls.dedup.length := by
  obtain ⟨h1, h2, h3⟩ := runLabels_init_inv palette ls
  have hkeys : (((runLabels palette initColorState ls).2).labelColorMap.map
      Prod.fst).toFinset = ls.toFinset := by
    ext x
    simp only [List.mem_toFinset]
    rw [← mapLookup_isSome, h2 x]
  calc ((runLabels palette initColorState ls).2).colorIndex
      = ((runLabels palette initColorState ls).2).labelColorMap.length := h1
    _ = (((runLabels palette initColorState ls).2).labelColorMap.map
          Prod.fst).length := (List.length_map _ _).symm
    _ = (((runLabels palette initColorState ls).2).labelColorMap.map
          Prod.fst).toFinset.card := (List.toFinset_card_of_nodup h3).symm
    _ = ls.toFinset.card := by rw [hkeys]
    _ = ls.dedup.length := List.card_toFinset ls

/-! ## Claim theorems -/

/-- C1: for every valid box and any sequence of move or resize pointer
events, with in-bounds or out-of-bounds client coordinates, the box
resulting after every transition satisfies the containment bounds. -/
theorem C1_move_resize_bounds (svg : SvgRect) (r : RenderSize) (b : NormRect)
    (hb : ValidRect b) (es : List EditEvent) :
    0 ≤ (runEvents svg r b es).x_min ∧ 0 ≤ (runEvents svg r b es).y_min ∧
      (runEvents svg r b es).x_min + (runEvents svg r b es).width ≤ 1 ∧
      (runEvents svg r b es).y_min + (runEvents svg r b es).height ≤ 1 := by
  obtain ⟨h1, h2, _, _, h5, h6⟩ := runEvents_valid svg r b es hb
  exact ⟨h1, h2, h5, h6⟩

theorem C1_move_resize_bounds_witness :
    0 ≤ (runEvents ⟨0, 0⟩ ⟨100, 100, 0, 0⟩ ⟨1/10, 1/10, 1/5, 1/5⟩
        [EditEvent.move ⟨1/10, 1/10, 1/10, 1/10⟩ 500 (-300),
         EditEvent.resize ResizeHandle.se 120 90]).x_min ∧
    0 ≤ (runEvents ⟨0, 0⟩ ⟨100, 100, 0, 0⟩ ⟨1/10, 1/10, 1/5, 1/5⟩
        [EditEvent.move ⟨1/10, 1/10, 1/10, 1/10⟩ 500 (-300),
         EditEvent.resize ResizeHandle.se 120 90]).y_min ∧
    (runEvents ⟨0, 0⟩ ⟨100, 100, 0, 0⟩ ⟨1/10, 1/10, 1/5, 1/5⟩
        [EditEvent.move ⟨1/10, 1/10, 1/10, 1/10⟩ 500 (-300),
         EditEvent.resize ResizeHandle.se 120 90]).x_min +
      (runEvents ⟨0, 0⟩ ⟨100, 100, 0, 0⟩ ⟨1/10, 1/10, 1/5, 1/5⟩
        [EditEvent.move ⟨1/10, 1/10, 1/10, 1/10⟩ 500 (-300),
         EditEvent.resize ResizeHandle.se 120 90]).width ≤ 1 ∧
    (runEvents ⟨0, 0⟩ ⟨100, 100, 0, 0⟩ ⟨1/10, 1/10, 1/5, 1/5⟩
        [EditEvent.move ⟨1/10, 1/10, 1/10, 1/10⟩ 500 (-300),
         EditEvent.resize ResizeHandle.se 120 90]).y_min +
      (runEvents ⟨0, 0⟩ ⟨100, 100, 0, 0⟩ ⟨1/10, 1/10, 1/5, 1/5⟩
        [EditEvent.move ⟨1/10, 1/10, 1/10, 1/10⟩ 500 (-300),
         EditEvent.resize ResizeHandle.se 120 90]).height ≤ 1 :=
  C1_move_resize_bounds ⟨0, 0⟩ ⟨100, 100, 0, 0⟩ ⟨1/10, 1/10, 1/5, 1/5⟩
    (by constructor <;> norm_num)
    [EditEvent.move ⟨1/10, 1/10, 1/10, 1/10⟩ 500 (-300),
     EditEvent.resize ResizeHandle.se 120 90]

/-- C2 counterexample: the box with x_min equal to zero lies inside the
unit square and the container is 100 by 100, yet the round trip does not
reproduce its corners, because toDisplayCoords returns the empty record
for a falsy x_min. -/
theorem C2_display_roundtrip_counterexample :
    roundTripCorners ⟨0, 0⟩ ⟨100, 100, 0, 0⟩ ⟨0, 1/2, 1/2, 1/5⟩ ≠
      some (⟨0, 1/2⟩, ⟨0 + 1/2, 1/2 + 1/5⟩) := by
  simp [roundTripCorners, toDisplayCoords]

/-- C2 amended: for every box inside the unit square all of whose
geometry fields are nonzero, and every container of nonzero area, the
display transform followed by the normalization transform reproduces both
corners exactly. -/
theorem C2_display_roundtrip (svg : SvgRect) (r : RenderSize) (b : NormRect)
    (hx : 0 < b.x_min) (hy : 0 < b.y_min) (hw : 0 < b.width) (hh : 0 < b.height)
    (hxw : b.x_min + b.width ≤ 1) (hyh : b.y_min + b.height ≤ 1)
    (hrw : r.width ≠ 0) (hrh : r.height ≠ 0) :
    roundTripCorners svg r b =
      some (⟨b.x_min, b.y_min⟩, ⟨b.x_min + b.width, b.y_min + b.height⟩) := by
  have e1 : (b.x_min * r.width + r.offsetX + svg.left - svg.left - r.offsetX) / r.width
      = b.x_min := by field_simp
  have e2 : (b.y_min * r.height + r.offsetY + svg.top - svg.top - r.offsetY) / r.height
      = b.y_min := by field_simp
  have e3 : (b.x_min * r.width + r.offsetX + b.width * r.width + svg.left
        - svg.left - r.offsetX) / r.width = b.x_min + b.width := by
    field_simp; ring
  have e4 : (b.y_min * r.height + r.offsetY + b.height * r.height + svg.top
        - svg.top - r.offsetY) / r.height = b.y_min + b.height := by
    field_simp; ring
  have c1 : clamp01 b.x_min = b.x_min := by
    unfold clamp01
    rw [min_eq_right (by linarith), max_eq_right (by linarith)]
  have c2 : clamp01 b.y_min = b.y_min := by
    unfold clamp01
    rw [min_eq_right (by linarith), max_eq_right (by linarith)]
  have c3 : clamp01 (b.x_min + b.width) = b.x_min + b.width := by
    unfold clamp01
    rw [min_eq_right (by linarith), max_eq_right (by linarith)]
  have c4 : clamp01 (b.y_min + b.height) = b.y_min + b.height := by
    unfold clamp01
    rw [min_eq_right (by linarith), max_eq_right (by linarith)]
  unfold roundTripCorners toDisplayCoords getNormalizedCoords
  rw [if_neg (by push_neg; exact ⟨ne_of_gt hx, ne_of_gt hy, ne_of_gt hw, ne_of_gt hh, hrw⟩)]
  simp only [hrw, if_false]
  rw [e1, e2, e3, e4, c1, c2, c3, c4]

theorem C2_display_roundtrip_witness :
    roundTripCorners ⟨3, 7⟩ ⟨200, 100, 10, 5⟩ ⟨1/4, 1/4, 1/2, 1/2⟩ =
      some (⟨1/4, 1/4⟩, ⟨1/4 + 1/2, 1/4 + 1/2⟩) :=
  C2_display_roundtrip ⟨3, 7⟩ ⟨200, 100, 10, 5⟩ ⟨1/4, 1/4, 1/2, 1/2⟩
    (by norm_num) (by norm_num) (by norm_num) (by norm_num)
    (by norm_num) (by norm_num) (by norm_num) (by norm_num)

/-- C3: evaluation of the draw branch at the failing input. A draw pressed
at (0.5, 0.5), moved to (0.3, 0.5) and then to (0.6, 0.5) yields
x_min = 0.3 and width = 0.3, because each pointer-move overwrites the
stored x_min with the running minimum and the next move measures the
width from that overwritten value; the spec formula (x_min equal to the
minimum of press and current point, width equal to their absolute
difference) demands x_min = 0.5 and width = 0.1 here. -/
theorem C3_draw_anchor_drift :
    runDraw ⟨1/2, 1/2⟩ [⟨3/10, 1/2⟩, ⟨3/5, 1/2⟩] = ⟨3/10, 1/2, 3/10, 0⟩ ∧
    ¬((runDraw ⟨1/2, 1/2⟩ [⟨3/10, 1/2⟩, ⟨3/5, 1/2⟩]).x_min
        = min ((1:ℚ)/2) (3/5) ∧
      (runDraw ⟨1/2, 1/2⟩ [⟨3/10, 1/2⟩, ⟨3/5, 1/2⟩]).width
        = |(3:ℚ)/5 - 1/2|) := by
  have h : runDraw ⟨1/2, 1/2⟩ [⟨3/10, 1/2⟩, ⟨3/5, 1/2⟩] = ⟨3/10, 1/2, 3/10, 0⟩ := by
    simp only [runDraw, List.foldl, drawMove, drawMouseDown]
    norm_num
  refine ⟨h, ?_⟩
  rw [h]
  norm_num

/-- C4 counterexample: dragging the nw handle of the box
(0.1, 0.1, 0.2, 0.2) to the point (0.05, 0.05) leaves x_min at 0.1,
whereas the claim requires x_min to track the pointer to 0.05: the source
implements no geometry change for any handle other than se. -/
theorem C4_resize_nw_counterexample :
    (resizeBox ResizeHandle.nw ⟨1/10, 1/10, 1/5, 1/5⟩ ⟨1/20, 1/20⟩).x_min ≠ 1/20 := by
  simp only [resizeBox, reduceCtorEq, if_false]
  norm_num

/-- C4 amended: the se handle keeps x_min and y_min fixed and sets the
extents to max(0.01, pointer minus origin), clamped so the box does not
cross 1 on either axis; every other handle leaves the geometry of a box
satisfying the containment bounds unchanged (the final clamp is then a
no-op). -/
theorem C4_resize_semantics (b : NormRect) (c : Point) :
    ((resizeBox ResizeHandle.se b c).x_min = b.x_min ∧
     (resizeBox ResizeHandle.se b c).y_min = b.y_min ∧
     (resizeBox ResizeHandle.se b c).width
        = min (max (1/100) (c.x - b.x_min)) (1 - b.x_min) ∧
     (resizeBox ResizeHandle.se b c).height
        = min (max (1/100) (c.y - b.y_min)) (1 - b.y_min)) ∧
    (∀ h : ResizeHandle, h ≠ ResizeHandle.se →
      b.x_min + b.width ≤ 1 → b.y_min + b.height ≤ 1 →
      resizeBox h b c = b) := by
  have key : ∀ xm w : ℚ, (if xm + w > 1 then 1 - xm else w) = min w (1 - xm) := by
    intro xm w
    split_ifs with hcond
    · rw [min_eq_right]; linarith
    · rw [min_eq_left]; linarith [not_lt.mp hcond]
  constructor
  · refine ⟨rfl, rfl, ?_, ?_⟩
    · simp only [resizeBox, if_pos rfl]
      exact key _ _
    · simp only [resizeBox, if_pos rfl]
      exact key _ _
  · intro h hne hx hy
    simp only [resizeBox, if_neg hne]
    rw [if_neg (by linarith), if_neg (by linarith)]

theorem C4_resize_semantics_witness :
    ((resizeBox ResizeHandle.se ⟨1/10, 1/10, 1/5, 1/5⟩ ⟨1/20, 2/5⟩).x_min = 1/10 ∧
     (resizeBox ResizeHandle.se ⟨1/10, 1/10, 1/5, 1/5⟩ ⟨1/20, 2/5⟩).y_min = 1/10 ∧
     (resizeBox ResizeHandle.se ⟨1/10, 1/10, 1/5, 1/5⟩ ⟨1/20, 2/5⟩).width
        = min (max (1/100) (1/20 - 1/10)) (1 - 1/10) ∧
     (resizeBox ResizeHandle.se ⟨1/10, 1/10, 1/5, 1/5⟩ ⟨1/20, 2/5⟩).height
        = min (max (1/100) (2/5 - 1/10)) (1 - 1/10)) ∧
    resizeBox ResizeHandle.n ⟨1/10, 1/10, 1/5, 1/5⟩ ⟨1/20, 2/5⟩
      = ⟨1/10, 1/10, 1/5, 1/5⟩ :=
  ⟨(C4_resize_semantics ⟨1/10, 1/10, 1/5, 1/5⟩ ⟨1/20, 2/5⟩).1,
   (C4_resize_semantics ⟨1/10, 1/10, 1/5, 1/5⟩ ⟨1/20, 2/5⟩).2 ResizeHandle.n
     (by simp) (by norm_num) (by norm_num)⟩

/-- C5: merging a successful assist response of two well-formed boxes into
a working set holding one human-added box appends the two new boxes after
the existing one: three boxes result, the original box is unchanged (same
id and source), the appended boxes carry the two fresh ids and source
gemini-assisted, all ids are pairwise distinct, and nothing is
deduplicated or dropped. -/
theorem C5_assist_merge_appends (palette : List String) (prompt : String)
    (b0 : BoundingBox) (r1 r2 : RawBox) (ids : Nat → Nat) (s : AssistState)
    (hprompt : prompt.data.all Char.isWhitespace = false) (hboxes : s.boxes = [b0])
    (hsrc : b0.source = AnnotationSource.humanAdded)
    (h0 : ids 0 ≠ b0.id) (h1 : ids 1 ≠ b0.id) (h01 : ids 0 ≠ ids 1) :
    (handleGeminiAssistRequest palette prompt
        (Except.ok (validateAssistBoxes ids [some r1, some r2] 0)) s).boxes.length = 3 ∧
    (handleGeminiAssistRequest palette prompt
        (Except.ok (validateAssistBoxes ids [some r1, some r2] 0)) s).boxes.head?
      = some b0 ∧
    (handleGeminiAssistRequest palette prompt
        (Except.ok (validateAssistBoxes ids [some r1, some r2] 0)) s).boxes.map
        BoundingBox.id = [b0.id, ids 0, ids 1] ∧
    (handleGeminiAssistRequest palette prompt
        (Except.ok (validateAssistBoxes ids [some r1, some r2] 0)) s).boxes.map
        BoundingBox.source
      = [AnnotationSource.humanAdded, AnnotationSource.geminiAssisted,
         AnnotationSource.geminiAssisted] ∧
    ((handleGeminiAssistRequest palette prompt
        (Except.ok (validateAssistBoxes ids [some r1, some r2] 0)) s).boxes.map
        BoundingBox.id).Nodup := by
  have hmain : (handleGeminiAssistRequest palette prompt
      (Except.ok (validateAssistBoxes ids [some r1, some r2] 0)) s).boxes
      = s.boxes ++ (assignColors palette s.colorState
          (validateAssistBoxes ids [some r1, some r2] 0)).1 := by
    unfold handleGeminiAssistRequest
    rw [if_neg (by simp [hprompt])]
  obtain ⟨hid, hsource, hlen⟩ :=
    assignColors_fields palette s.colorState (validateAssistBoxes ids [some r1, some r2] 0)
  have hid2 : (validateAssistBoxes ids [some r1, some r2] 0).map BoundingBox.id
      = [ids 0, ids 1] := rfl
  have hsrc2 : (validateAssistBoxes ids [some r1, some r2] 0).map BoundingBox.source
      = [AnnotationSource.geminiAssisted, AnnotationSource.geminiAssisted] := rfl
  have hlen2 : (validateAssistBoxes ids [some r1, some r2] 0).length = 2 := rfl
  refine ⟨?_, ?_, ?_, ?_, ?_⟩
  · rw [hmain, List.length_append, hboxes, hlen, hlen2]
    rfl
  · rw [hmain, hboxes]
    rfl
  · rw [hmain, List.map_append, hboxes, hid, hid2]
    rfl
  · rw [hmain, List.map_append, hboxes, hsource, hsrc2]
    simp [hsrc]
  · rw [hmain, List.map_append, hboxes, hid, hid2]
    simp only [List.map_cons, List.map_nil, List.cons_append, List.nil_append]
    simp only [List.nodup_cons, List.mem_cons, List.mem_singleton, List.not_mem_nil,
      List.nodup_nil, and_true, not_or]
    exact ⟨⟨Ne.symm h0, Ne.symm h1, not_false⟩, ⟨h01, not_false⟩, not_false⟩

theorem C5_assist_merge_appends_witness :
    (handleGeminiAssistRequest ["red"] "find circles"
        (Except.ok (validateAssistBoxes (fun k => k + 10)
          [some ⟨"a", 1/4, 1/4, 1/8, 1/8⟩, some ⟨"b", 1/2, 1/2, 1/8, 1/8⟩] 0))
        ⟨[⟨5, "cat", 1/10, 1/10, 1/5, 1/5, none, AnnotationSource.humanAdded⟩],
         none, initColorState⟩).boxes.length = 3 ∧
    (handleGeminiAssistRequest ["red"] "find circles"
        (Except.ok (validateAssistBoxes (fun k => k + 10)
          [some ⟨"a", 1/4, 1/4, 1/8, 1/8⟩, some ⟨"b", 1/2, 1/2, 1/8, 1/8⟩] 0))
        ⟨[⟨5, "cat", 1/10, 1/10, 1/5, 1/5, none, AnnotationSource.humanAdded⟩],
         none, initColorState⟩).boxes.head?
      = some ⟨5, "cat", 1/10, 1/10, 1/5, 1/5, none, AnnotationSource.humanAdded⟩ ∧
    (handleGeminiAssistRequest ["red"] "find circles"
        (Except.ok (validateAssistBoxes (fun k => k + 10)
          [some ⟨"a", 1/4, 1/4, 1/8, 1/8⟩, some ⟨"b", 1/2, 1/2, 1/8, 1/8⟩] 0))
        ⟨[⟨5, "cat", 1/10, 1/10, 1/5, 1/5, none, AnnotationSource.humanAdded⟩],
         none, initColorState⟩).boxes.map BoundingBox.id = [5, 10, 11] ∧
    (handleGeminiAssistRequest ["red"] "find circles"
        (Except.ok (validateAssistBoxes (fun k => k + 10)
          [some ⟨"a", 1/4, 1/4, 1/8, 1/8⟩, some ⟨"b", 1/2, 1/2, 1/8, 1/8⟩] 0))
        ⟨[⟨5, "cat", 1/10, 1/10, 1/5, 1/5, none, AnnotationSource.humanAdded⟩],
         none, initColorState⟩).boxes.map BoundingBox.source
      = [AnnotationSource.humanAdded, AnnotationSource.geminiAssisted,
         AnnotationSource.geminiAssisted] ∧
    ((handleGeminiAssistRequest ["red"] "find circles"
        (Except.ok (validateAssistBoxes (fun k => k + 10)
          [some ⟨"a", 1/4, 1/4, 1/8, 1/8⟩, some ⟨"b", 1/2, 1/2, 1/8, 1/8⟩] 0))
        ⟨[⟨5, "cat", 1/10, 1/10, 1/5, 1/5, none, AnnotationSource.humanAdded⟩],
         none, initColorState⟩).boxes.map BoundingBox.id).Nodup :=
  C5_assist_merge_appends ["red"] "find circles"
    ⟨5, "cat", 1/10, 1/10, 1/5, 1/5, none, AnnotationSource.humanAdded⟩
    ⟨"a", 1/4, 1/4, 1/8, 1/8⟩ ⟨"b", 1/2, 1/2, 1/8, 1/8⟩ (fun k => k + 10)
    ⟨[⟨5, "cat", 1/10, 1/10, 1/5, 1/5, none, AnnotationSource.humanAdded⟩],
     none, initColorState⟩
    (by decide) rfl rfl (by decide) (by decide) (by decide)

/-- C6: when the assist call fails with any error, the resulting box set
is exactly the previous one and the failure is recorded in the assist
error field; the empty-prompt rejection behaves the same way. -/
theorem C6_assist_failure_no_side_effects (palette : List String)
    (prompt msg : String) (s : AssistState) :
    (handleGeminiAssistRequest palette prompt (Except.error msg) s).boxes = s.boxes ∧
    (handleGeminiAssistRequest palette prompt (Except.error msg) s).assistError.isSome := by
  unfold handleGeminiAssistRequest
  split_ifs <;> simp

/-- C7: the color allocator is deterministic and order-dependent within
an epoch. First, a repeated call with the same label returns the color of
the first call and does not change the state. Second, a label not seen in
the sequence processed since the initial epoch state is assigned
palette[count % palette.length], where count is the number of distinct
labels seen so far. Third, after a reset, replaying any label sequence
reproduces exactly the color sequence of a fresh epoch. -/
theorem C7_color_allocator_det (palette : List String) :
    (∀ (label : String) (s : ColorState),
      getLabelColor palette label ((getLabelColor palette label s).2)
        = getLabelColor palette label s) ∧
    (∀ (ls : List String) (label : String), label ∉ ls →
      (getLabelColor palette label ((runLabels palette initColorState ls).2)).1
        = palette.getD (ls.dedup.length % palette.length) "") ∧
    (∀ (s : ColorState) (ls : List String),
      runLabels palette (resetLabelColors s) ls
        = runLabels palette initColorState ls) := by
  refine ⟨?_, ?_, fun s ls => rfl⟩
  · intro label s
    unfold getLabelColor
    cases hl : mapLookup s.labelColorMap label with
    | some c => simp [hl]
    | none => simp [mapLookup]
  · intro ls label hnotin
    have h2 := (runLabels_init_inv palette ls).2.1 label
    have hnone : mapLookup ((runLabels palette initColorState ls).2).labelColorMap label
        = none := by
      rw [← Option.not_isSome_iff_eq_none, h2]
      exact hnotin
    unfold getLabelColor
    rw [hnone, runLabels_colorIndex]

theorem C7_color_allocator_det_witness :
    (getLabelColor ["red", "green"] "bird"
        ((runLabels ["red", "green"] initColorState ["cat", "dog", "cat"]).2)).1
      = ["red", "green"].getD
          ((["cat", "dog", "cat"].dedup).length % ["red", "green"].length) "" :=
  (C7_color_allocator_det ["red", "green"]).2.1 ["cat", "dog", "cat"] "bird"
    (by decide)

/-- C8: the draw branch of pointer-up adds no box when the drawing box
has zero width or zero height, whatever label the user would supply; in
particular a press and release at the same point leaves the box set
unchanged. -/
theorem C8_zero_area_draw_discarded (palette : List String)
    (boxes : List BoundingBox) (d : NormRect) (labelResult : Option String)
    (freshId : Nat) (cs : ColorState) (h : d.width = 0 ∨ d.height = 0) :
    (handleMouseUpDraw palette boxes d labelResult freshId cs).1 = boxes := by
  unfold handleMouseUpDraw
  rw [if_neg (by tauto)]

theorem C8_zero_area_draw_discarded_witness :
    (handleMouseUpDraw ["red"] [] (drawMouseDown ⟨1/2, 1/2⟩)
        (some "new object") 7 initColorState).1 = [] :=
  C8_zero_area_draw_discarded ["red"] [] (drawMouseDown ⟨1/2, 1/2⟩)
    (some "new object") 7 initColorState (Or.inl rfl)

/-- C9: resizing via the se handle on the box (0.1, 0.1, 0.2, 0.2) with
the pointer at (0.05, 0.4) clamps the width to the minimum extent 0.01
instead of going negative and sets the height to 0.3; and for every box
satisfying the model invariant and every pointer position, the se resize
produces strictly positive extents. -/
theorem C9_se_resize_min_extent :
    (resizeBox ResizeHandle.se ⟨1/10, 1/10, 1/5, 1/5⟩ ⟨1/20, 2/5⟩).width = 1/100 ∧
    (resizeBox ResizeHandle.se ⟨1/10, 1/10, 1/5, 1/5⟩ ⟨1/20, 2/5⟩).height = 3/10 ∧
    ∀ (b : NormRect) (c : Point), ValidRect b →
      0 < (resizeBox ResizeHandle.se b c).width ∧
      0 < (resizeBox ResizeHandle.se b c).height := by
  refine ⟨?_, ?_, ?_⟩
  · simp only [resizeBox]; norm_num
  · simp only [resizeBox]; norm_num
  · intro b c hb
    obtain ⟨_, _, hw, hh, _, _⟩ := resizeBox_valid ResizeHandle.se b c hb
    exact ⟨hw, hh⟩

theorem C9_se_resize_min_extent_witness :
    0 < (resizeBox ResizeHandle.se ⟨1/10, 1/10, 1/5, 1/5⟩ ⟨1/20, 2/5⟩).width ∧
    0 < (resizeBox ResizeHandle.se ⟨1/10, 1/10, 1/5, 1/5⟩ ⟨1/20, 2/5⟩).height :=
  C9_se_resize_min_extent.2.2 ⟨1/10, 1/10, 1/5, 1/5⟩ ⟨1/20, 2/5⟩
    (by constructor <;> norm_num)

/-- C10: any box with a zero x_min, y_min, width or height gets the empty
display record from toDisplayCoords and exposes no resize handles, for
every render geometry, including containers of nonzero area; such a box
is therefore skipped by the renderer, whose guard checks the displayed x
for undefined. -/
theorem C10_zero_field_not_rendered (r : RenderSize) (b : NormRect)
    (h : b.x_min = 0 ∨ b.y_min = 0 ∨ b.width = 0 ∨ b.height = 0) :
    toDisplayCoords r b = none ∧ getHandlePositions r b = [] := by
  have hd : toDisplayCoords r b = none := by
    unfold toDisplayCoords
    rw [if_pos (by tauto)]
  exact ⟨hd, by simp [getHandlePositions, hd]⟩

theorem C10_zero_field_not_rendered_witness :
    toDisplayCoords ⟨100, 100, 0, 0⟩ ⟨0, 1/2, 1/2, 1/5⟩ = none ∧
    getHandlePositions ⟨100, 100, 0, 0⟩ ⟨0, 1/2, 1/2, 1/5⟩ = [] :=
  C10_zero_field_not_rendered ⟨100, 100, 0, 0⟩ ⟨0, 1/2, 1/2, 1/5⟩ (Or.inl rfl)

end RapidAnnotate
